import Mathlib

/-!
Shallow embedding of `src/tracker/auth.rs` from torrust-tracker: expiring
authentication keys (generation, parsing, verification, display).

Machine integers are modelled as `Nat` with explicit bounds; Rust panics
(`unwrap`, `expect`, and documented panics of called library functions) are
modelled as the error channel of `Except` / as `Option.none`.
-/

set_option autoImplicit false

namespace TorrustAuth

/-- `u64::MAX`, the largest value of the seconds field of `std::time::Duration`. -/
def u64Max : Nat := 18446744073709551615

/-- `i64::MAX`, bound of the `i64::try_from` conversion in `ExpiringKey`'s `Display`. -/
def i64Max : Nat := 9223372036854775807

/-- Nanoseconds per second, the bound of the nanos field of `std::time::Duration`. -/
def NANOS_PER_SEC : Nat := 1000000000

/-- Modelled from the spec: `AUTH_KEY_LENGTH` lives in `protocol::common`, which is
not part of the sources; the spec says it is "a fixed positive integer defining the
exact token length". The value 32 matches the 32-character key used by the in-repo
test `auth_key_from_string`. -/
def AUTH_KEY_LENGTH : Nat := 32

/-- `std::time::Duration` (the repository's `DurationSinceUnixEpoch`): a u64 count
of seconds plus a sub-second nanosecond count. Fields are `Nat`; well-formedness
(`Duration.wf`) carries the machine bounds. -/
structure Duration where
  secs : Nat
  nanos : Nat
  deriving DecidableEq, Repr

/-- The machine invariants of `std::time::Duration`: seconds fit in u64 and the
nanos field is a genuine sub-second count. -/
def Duration.wf (d : Duration) : Prop :=
  d.secs ≤ u64Max ∧ d.nanos < NANOS_PER_SEC

instance (d : Duration) : Decidable d.wf :=
  inferInstanceAs (Decidable (d.secs ≤ u64Max ∧ d.nanos < NANOS_PER_SEC))

/-- Rust's derived `Ord` on `Duration`: lexicographic on (secs, nanos). -/
def Duration.lt (a b : Duration) : Prop :=
  a.secs < b.secs ∨ (a.secs = b.secs ∧ a.nanos < b.nanos)

/-- Non-strict counterpart of `Duration.lt`. -/
def Duration.le (a b : Duration) : Prop :=
  a.secs < b.secs ∨ (a.secs = b.secs ∧ a.nanos ≤ b.nanos)

instance (a b : Duration) : Decidable (a.lt b) :=
  inferInstanceAs (Decidable (a.secs < b.secs ∨ (a.secs = b.secs ∧ a.nanos < b.nanos)))

instance (a b : Duration) : Decidable (a.le b) :=
  inferInstanceAs (Decidable (a.secs < b.secs ∨ (a.secs = b.secs ∧ a.nanos ≤ b.nanos)))

/-- `std::time::Duration::checked_add`: add nanos with carry into seconds and
fail with `none` when the seconds sum leaves the u64 range. -/
def Duration.checkedAdd (a b : Duration) : Option Duration :=
  let totalNanos := a.nanos + b.nanos
  let carry := if NANOS_PER_SEC ≤ totalNanos then 1 else 0
  let nanos := if NANOS_PER_SEC ≤ totalNanos then totalNanos - NANOS_PER_SEC else totalNanos
  if a.secs + b.secs + carry ≤ u64Max then
    some ⟨a.secs + b.secs + carry, nanos⟩
  else
    none

/-- Modelled from the spec: the clock error taxonomy of `protocol::clock` (not in
the sources): "`ClockError::Overflow` — a duration arithmetic operation exceeded
the representable time range". -/
inductive ClockError where
  | overflow
  deriving DecidableEq, Repr

/-- Modelled from the spec: `Clock.add(duration)` of `protocol::clock` (not in the
sources) "computes `now() + duration` without mutating stored state ...; fails
with `Overflow` if addition exceeds the maximum representable duration". The
clock's current reading is passed explicitly as `now`. -/
def Clock.add (now lifetime : Duration) : Except ClockError Duration :=
  match now.checkedAdd lifetime with
  | some v => .ok v
  | none => .error .overflow

/-- The number of bytes of the UTF-8 encoding of a character; Rust's
`str::len` counts bytes, i.e. sums this over the characters. -/
def rustUtf8Size (c : Char) : Nat :=
  if c.toNat < 128 then 1
  else if c.toNat < 2048 then 2
  else if c.toNat < 65536 then 3
  else 4

/-- Rust `str::len`: the UTF-8 byte length of a string (modelled as `List Char`). -/
def byteLen (s : List Char) : Nat :=
  (s.map rustUtf8Size).sum

/-- `ParseKeyError`, the unit error struct returned by `Key::from_str`. -/
inductive ParseKeyError where
  | parseKeyError
  deriving DecidableEq, Repr

/-- `Key(String)`: the newtype holding the raw key string. -/
structure Key where
  val : List Char
  deriving DecidableEq, Repr

/-- `impl FromStr for Key`: reject any string whose byte length differs from
`AUTH_KEY_LENGTH`, otherwise keep the string as-is. -/
def Key.from_str (s : List Char) : Except ParseKeyError Key :=
  if byteLen s ≠ AUTH_KEY_LENGTH then
    .error .parseKeyError
  else
    .ok ⟨s⟩

/-- The derived (`derive_more`) `Display` of `Key`: renders the inner string. -/
def Key.display (k : Key) : List Char :=
  k.val

/-- `ExpiringKey { key, valid_until }`. -/
structure ExpiringKey where
  key : Key
  valid_until : Duration
  deriving DecidableEq, Repr

/-- The error enum `Error` of `tracker::auth`; the `&'static Location` provenance
payloads and the wrapped storage cause are not semantic and are dropped. -/
inductive Error where
  | keyVerificationError
  | unableToReadKey (key : Key)
  | keyExpired
  deriving DecidableEq, Repr

/-- `verify(auth_key) -> Result<(), Error>`: reads `current_time = Current::now()`
(passed explicitly) and returns `Err(KeyExpired)` iff `valid_until < current_time`. -/
def verify (auth_key : ExpiringKey) (current_time : Duration) : Except Error Unit :=
  if auth_key.valid_until.lt current_time then
    .error .keyExpired
  else
    .ok ()

/-- The alphanumeric alphabet of rand's `Alphanumeric` distribution:
`a-z`, `A-Z`, `0-9` (as ASCII code points). -/
def isAlphanumeric (c : Char) : Prop :=
  (97 ≤ c.toNat ∧ c.toNat ≤ 122) ∨ (65 ≤ c.toNat ∧ c.toNat ≤ 90) ∨
    (48 ≤ c.toNat ∧ c.toNat ≤ 57)

instance (c : Char) : Decidable (isAlphanumeric c) :=
  inferInstanceAs (Decidable ((97 ≤ c.toNat ∧ c.toNat ≤ 122) ∨ (65 ≤ c.toNat ∧ c.toNat ≤ 90) ∨
    (48 ≤ c.toNat ∧ c.toNat ≤ 57)))

/-- The two panics `generate` can hit, in source order: the `unwrap` of
`random_id.parse::<Key>()` and the `unwrap` of `Current::add(&lifetime)`.
An `unwrap` panic carries (the rendering of) the unwrapped error, so each
constructor records the error it derives from. -/
inductive GenPanic where
  | parseFailed (e : ParseKeyError)
  | addOverflow (e : ClockError)
  deriving DecidableEq, Repr

/-- `generate(lifetime) -> ExpiringKey`: draw `AUTH_KEY_LENGTH` characters from
the random source (modelled by the sample stream `rng`), parse them as a `Key`
(unwrapping), and set `valid_until := Current::add(&lifetime)` (unwrapping; the
clock's current reading is passed explicitly as `now`). Panics are the `.error`
channel. -/
def generate (rng : Nat → Char) (now lifetime : Duration) : Except GenPanic ExpiringKey :=
  let random_id : List Char := (List.range AUTH_KEY_LENGTH).map rng
  match Key.from_str random_id with
  | .error e => .error (.parseFailed e)
  | .ok key =>
    match Clock.add now lifetime with
    | .error e => .error (.addOverflow e)
    | .ok v => .ok { key := key, valid_until := v }

/-- Modelled from the spec: the stopped clock of `protocol::clock` (not in the
sources) — "an explicit in-memory instant that only changes when explicitly set
or advanced"; `now()` returns the stored instant. -/
structure ClockState where
  instant : Duration
  deriving DecidableEq, Repr

/-- Modelled from the spec: `now()` in stopped mode returns the stored instant. -/
def ClockState.now (st : ClockState) : Duration :=
  st.instant

/-- A call of `verify` with the full observable state threaded: it reads the
clock, compares, and hands back the (unchanged) clock state and key together
with the result. -/
def verifyCall (st : ClockState) (k : ExpiringKey) :
    Except Error Unit × ClockState × ExpiringKey :=
  (verify k st.now, st, k)

/-- The largest Unix-epoch second chrono's `NaiveDateTime` can represent:
23:59:59 on `NaiveDate::MAX` (262143-12-31). `NaiveDateTime::from_timestamp`
panics beyond it. -/
def chronoMaxTimestamp : Nat := 8210298412799

/-- Gregorian civil date `(year, month, day)` from a non-negative day count
since 1970-01-01 (the standard era-based civil-from-days computation chrono's
date conversion realises). -/
def civilFromDays (z : Nat) : Nat × Nat × Nat :=
  let z' := z + 719468
  let era := z' / 146097
  let doe := z' % 146097
  let yoe := (doe - doe / 1460 + doe / 36524 - doe / 146096) / 365
  let y := yoe + era * 400
  let doy := doe - (365 * yoe + yoe / 4 - yoe / 100)
  let mp := (5 * doy + 2) / 153
  let d := doy - (153 * mp + 2) / 5 + 1
  let m := if mp < 10 then mp + 3 else mp - 9
  if m ≤ 2 then (y + 1, m, d) else (y, m, d)

/-- Decimal rendering of `n` left-padded with zeros to width `w`. -/
def padLeft (w : Nat) (n : Nat) : List Char :=
  let ds := Nat.toDigits 10 n
  List.replicate (w - ds.length) '0' ++ ds

/-- chrono's `%Y`: the year zero-padded to 4 digits, with a leading `+` sign
for years above 9999. -/
def fmtYear (y : Nat) : List Char :=
  if 10000 ≤ y then '+' :: Nat.toDigits 10 y else padLeft 4 y

/-- chrono's `%.f` fragment of `NaiveTime`'s rendering: nothing when the
nanosecond part is zero, otherwise a dot and 3, 6 or 9 digits depending on
trailing zeros. -/
def fracRender (nanos : Nat) : List Char :=
  if nanos = 0 then []
  else if nanos % 1000000 = 0 then '.' :: padLeft 3 (nanos / 1000000)
  else if nanos % 1000 = 0 then '.' :: padLeft 6 (nanos / 1000)
  else '.' :: padLeft 9 nanos

/-- The `Display` of `chrono::DateTime<Utc>` applied to a Unix-epoch instant:
`YYYY-MM-DD HH:MM:SS[.frac] UTC`. -/
def timestampUTC (d : Duration) : List Char :=
  let days := d.secs / 86400
  let secsOfDay := d.secs % 86400
  let ymd := civilFromDays days
  fmtYear ymd.1 ++ ['-'] ++ padLeft 2 ymd.2.1 ++ ['-'] ++ padLeft 2 ymd.2.2 ++ [' '] ++
    padLeft 2 (secsOfDay / 3600) ++ [':'] ++ padLeft 2 (secsOfDay % 3600 / 60) ++ [':'] ++
    padLeft 2 (secsOfDay % 60) ++ fracRender d.nanos ++ [' ', 'U', 'T', 'C']

/-- The human-readable form the spec's words prescribe for an `ExpiringKey`:
"key: `<token>`, valid until `<timestamp>`". -/
def specDisplayTemplate (token timestamp : String) : String :=
  "key: `" ++ token ++ "`, valid until `" ++ timestamp ++ "`"

/-- `impl Display for ExpiringKey`. Partial: `i64::try_from(valid_until.as_secs())
.expect(..)` panics when the seconds exceed `i64::MAX`, and chrono's
`NaiveDateTime::from_timestamp` panics ("Panics on the out-of-range number of
seconds and/or invalid nanosecond") when the seconds exceed `chronoMaxTimestamp`
or the nanoseconds reach 2 seconds. Panics are modelled as `none`. -/
def ExpiringKey.display (k : ExpiringKey) : Option String :=
  if i64Max < k.valid_until.secs then none
  else if chronoMaxTimestamp < k.valid_until.secs ∨ 2000000000 ≤ k.valid_until.nanos then none
  else
    some ("key: `" ++ String.mk k.key.val ++ "`, valid until `" ++
      String.mk (timestampUTC k.valid_until) ++ "`")

/-! ### Helper lemmas -/

theorem Duration.le_iff_not_lt (a b : Duration) : a.le b ↔ ¬b.lt a := by
  unfold Duration.le Duration.lt
  omega

theorem byteLen_of_ascii (s : List Char) (h : ∀ c ∈ s, c.toNat < 128) :
    byteLen s = s.length := by
  induction s with
  | nil => rfl
  | cons c cs ih =>
    have hc : rustUtf8Size c = 1 := by
      unfold rustUtf8Size
      rw [if_pos (h c (List.mem_cons_self c cs))]
    have hcs := ih fun d hd => h d (List.mem_cons_of_mem c hd)
    simp only [byteLen, List.map_cons, List.sum_cons, List.length_cons] at *
    omega

theorem from_str_of_ascii (s : List Char) (hlen : s.length = AUTH_KEY_LENGTH)
    (hascii : ∀ c ∈ s, c.toNat < 128) : Key.from_str s = .ok ⟨s⟩ := by
  unfold Key.from_str
  rw [byteLen_of_ascii s hascii, hlen, if_neg (by simp)]

theorem alphanumeric_ascii (c : Char) (h : isAlphanumeric c) : c.toNat < 128 := by
  unfold isAlphanumeric at h
  omega

theorem random_id_from_str_ok (rng : Nat → Char) (halpha : ∀ i, isAlphanumeric (rng i)) :
    Key.from_str ((List.range AUTH_KEY_LENGTH).map rng) =
      .ok ⟨(List.range AUTH_KEY_LENGTH).map rng⟩ := by
  apply from_str_of_ascii
  · simp
  · intro c hc
    simp only [List.mem_map] at hc
    obtain ⟨i, _, rfl⟩ := hc
    exact alphanumeric_ascii _ (halpha i)

theorem generate_eq_parseFailed (rng : Nat → Char) (now lifetime : Duration)
    (e : ParseKeyError)
    (hp : Key.from_str ((List.range AUTH_KEY_LENGTH).map rng) = .error e) :
    generate rng now lifetime = .error (.parseFailed e) := by
  simp only [generate]
  rw [hp]

theorem generate_eq_addOverflow (rng : Nat → Char) (now lifetime : Duration) (key : Key)
    (hp : Key.from_str ((List.range AUTH_KEY_LENGTH).map rng) = .ok key)
    (hq : now.checkedAdd lifetime = none) :
    generate rng now lifetime = .error (.addOverflow .overflow) := by
  simp only [generate, Clock.add]
  rw [hp, hq]

theorem generate_eq_ok (rng : Nat → Char) (now lifetime : Duration) (key : Key)
    (v : Duration)
    (hp : Key.from_str ((List.range AUTH_KEY_LENGTH).map rng) = .ok key)
    (hq : now.checkedAdd lifetime = some v) :
    generate rng now lifetime = .ok { key := key, valid_until := v } := by
  simp only [generate, Clock.add]
  rw [hp, hq]

theorem generate_ok_elim (rng : Nat → Char) (now lifetime : Duration) (k : ExpiringKey)
    (h : generate rng now lifetime = .ok k) :
    Key.from_str ((List.range AUTH_KEY_LENGTH).map rng) = .ok k.key ∧
      now.checkedAdd lifetime = some k.valid_until := by
  rcases hp : Key.from_str ((List.range AUTH_KEY_LENGTH).map rng) with e | key
  · rw [generate_eq_parseFailed rng now lifetime e hp] at h
    cases h
  · rcases hq : now.checkedAdd lifetime with _ | v
    · rw [generate_eq_addOverflow rng now lifetime key hp hq] at h
      cases h
    · rw [generate_eq_ok rng now lifetime key v hp hq] at h
      have hk : k = { key := key, valid_until := v } := (Except.ok.inj h).symm
      rw [hk]
      exact ⟨rfl, rfl⟩

theorem Duration.lt_def (a b : Duration) :
    a.lt b ↔ (a.secs < b.secs ∨ (a.secs = b.secs ∧ a.nanos < b.nanos)) :=
  Iff.rfl

theorem checkedAdd_whole_seconds (a : Duration) (n : Nat) (hwf : a.wf)
    (hroom : a.secs + n ≤ u64Max) :
    a.checkedAdd ⟨n, 0⟩ = some ⟨a.secs + n, a.nanos⟩ := by
  have h1 : ¬NANOS_PER_SEC ≤ a.nanos := by
    have := hwf.2
    omega
  simp [Duration.checkedAdd, h1, hroom]

/-! ### Claim theorems -/

/-- C1: for every `ExpiringKey`, `verify` returns `Ok(())` exactly when the
clock reading `now` satisfies `now <= valid_until`, returns `Err(KeyExpired)`
exactly when `now > valid_until`, and in particular returns `Ok` when `now`
equals `valid_until`. -/
theorem verify_ok_iff_now_le_valid_until (k : ExpiringKey) (now : Duration) :
    (verify k now = .ok () ↔ now.le k.valid_until) ∧
      (verify k now = .error .keyExpired ↔ k.valid_until.lt now) ∧
      verify k k.valid_until = .ok () := by
  have hirr : ¬k.valid_until.lt k.valid_until := by
    unfold Duration.lt
    omega
  unfold verify
  rw [if_neg hirr]
  by_cases h : k.valid_until.lt now
  · rw [if_pos h]
    refine ⟨?_, ?_, rfl⟩
    · constructor
      · intro hx
        cases hx
      · intro hle
        exact absurd h ((Duration.le_iff_not_lt now k.valid_until).mp hle)
    · constructor
      · intro _
        exact h
      · intro _
        rfl
  · rw [if_neg h]
    refine ⟨?_, ?_, rfl⟩
    · constructor
      · intro _
        exact (Duration.le_iff_not_lt now k.valid_until).mpr h
      · intro _
        rfl
    · constructor
      · intro hx
        cases hx
      · intro hlt
        exact absurd hlt h

/-- C2: when adding the lifetime to the clock reading leaves the representable
range (`checked_add` fails), `generate` propagates a failure derived from
`ClockError::Overflow` (the `unwrap` panic of `Current::add`) and never
produces a wrapped or truncated `ExpiringKey`. -/
theorem generate_overflow_propagates (rng : Nat → Char) (now lifetime : Duration)
    (halpha : ∀ i, isAlphanumeric (rng i))
    (hover : now.checkedAdd lifetime = none) :
    generate rng now lifetime = .error (.addOverflow .overflow) ∧
      ∀ k, generate rng now lifetime ≠ .ok k := by
  have hp := random_id_from_str_ok rng halpha
  have hgen := generate_eq_addOverflow rng now lifetime _ hp hover
  refine ⟨hgen, fun k hk => ?_⟩
  rw [hgen] at hk
  cases hk

/-- Witness for C2 at a concrete overflowing input: the clock one second below
`u64::MAX` seconds and a two-second lifetime. -/
theorem generate_overflow_propagates_witness :
    generate (fun _ => 'a') ⟨18446744073709551614, 0⟩ ⟨2, 0⟩ =
      .error (.addOverflow .overflow) :=
  (generate_overflow_propagates (fun _ => 'a') ⟨18446744073709551614, 0⟩ ⟨2, 0⟩
    (fun _ => show isAlphanumeric 'a' by decide) (by decide)).1

/-- C3 counterexample: a string of exactly `AUTH_KEY_LENGTH` characters that
`Key::from_str` rejects, because Rust `str::len` counts UTF-8 bytes and each
`é` occupies two bytes. -/
theorem from_str_char_count_counterexample :
    (List.replicate 32 'é').length = AUTH_KEY_LENGTH ∧
      Key.from_str (List.replicate 32 'é') = .error .parseKeyError :=
  ⟨rfl, rfl⟩

/-- C3 (amended): `from_str` succeeds iff the UTF-8 byte length of the input
equals `AUTH_KEY_LENGTH`; any other byte length fails with the wrong-length
error; and every ASCII string of exactly `AUTH_KEY_LENGTH` characters succeeds
regardless of character set (no alphanumeric validation). -/
theorem from_str_ok_iff_byte_length (s : List Char) :
    (Key.from_str s = .ok ⟨s⟩ ↔ byteLen s = AUTH_KEY_LENGTH) ∧
      (byteLen s ≠ AUTH_KEY_LENGTH → Key.from_str s = .error .parseKeyError) ∧
      (s.length = AUTH_KEY_LENGTH → (∀ c ∈ s, c.toNat < 128) →
        Key.from_str s = .ok ⟨s⟩) := by
  refine ⟨⟨fun hok => ?_, fun hlen => ?_⟩, fun hne => ?_, from_str_of_ascii s⟩
  · by_contra hne
    rw [Key.from_str, if_pos hne] at hok
    cases hok
  · rw [Key.from_str, if_neg (by omega)]
  · rw [Key.from_str, if_pos hne]

/-- Witness for C3 (amended) at the concrete key string used by the in-repo
test, a 32-character ASCII string. -/
theorem from_str_ok_iff_byte_length_witness :
    Key.from_str "YZSl4lMZupRuOpSRC3krIKR5BPB14nrJ".data =
      .ok ⟨"YZSl4lMZupRuOpSRC3krIKR5BPB14nrJ".data⟩ :=
  (from_str_ok_iff_byte_length "YZSl4lMZupRuOpSRC3krIKR5BPB14nrJ".data).2.2
    (by decide) (by decide)

/-- C4: every string whose length (`str::len`, i.e. UTF-8 bytes) is exactly
`AUTH_KEY_LENGTH` parses successfully and the `Display` rendering of the
resulting `Key` is that string, character for character. -/
theorem from_str_display_roundtrip (s : List Char)
    (h : byteLen s = AUTH_KEY_LENGTH) :
    Key.from_str s = .ok ⟨s⟩ ∧ Key.display ⟨s⟩ = s := by
  refine ⟨?_, rfl⟩
  rw [Key.from_str, if_neg (by omega)]

/-- Witness for C4 at the concrete key string used by the in-repo test. -/
theorem from_str_display_roundtrip_witness :
    Key.from_str "YZSl4lMZupRuOpSRC3krIKR5BPB14nrJ".data =
        .ok ⟨"YZSl4lMZupRuOpSRC3krIKR5BPB14nrJ".data⟩ ∧
      Key.display ⟨"YZSl4lMZupRuOpSRC3krIKR5BPB14nrJ".data⟩ =
        "YZSl4lMZupRuOpSRC3krIKR5BPB14nrJ".data :=
  from_str_display_roundtrip "YZSl4lMZupRuOpSRC3krIKR5BPB14nrJ".data (by decide)

/-- C5: whenever `generate` returns a key, its `valid_until` is the clock
reading plus the lifetime (the checked sum); concretely, from a stopped clock
at `T0`, a 19-second lifetime yields `valid_until = T0+19s`, `verify` at
`T0+10s` returns `Ok` and `verify` at `T0+20s` returns `Err(KeyExpired)`. -/
theorem generate_valid_until_and_expiry (rng : Nat → Char) (T0 : Duration)
    (hwf : T0.wf) (hroom : T0.secs + 20 ≤ u64Max) :
    (∀ lifetime k, generate rng T0 lifetime = .ok k →
        T0.checkedAdd lifetime = some k.valid_until) ∧
      ∀ k, generate rng T0 ⟨19, 0⟩ = .ok k →
        k.valid_until = ⟨T0.secs + 19, T0.nanos⟩ ∧
          verify k ⟨T0.secs + 10, T0.nanos⟩ = .ok () ∧
          verify k ⟨T0.secs + 20, T0.nanos⟩ = .error .keyExpired := by
  refine ⟨fun lifetime k h => (generate_ok_elim rng T0 lifetime k h).2, fun k h => ?_⟩
  have hadd := (generate_ok_elim rng T0 ⟨19, 0⟩ k h).2
  rw [checkedAdd_whole_seconds T0 19 hwf (by omega)] at hadd
  have hv : k.valid_until = ⟨T0.secs + 19, T0.nanos⟩ := (Option.some.inj hadd).symm
  have h10 : ¬(⟨T0.secs + 19, T0.nanos⟩ : Duration).lt ⟨T0.secs + 10, T0.nanos⟩ := by
    rw [Duration.lt_def]
    simp only []
    omega
  have h20 : (⟨T0.secs + 19, T0.nanos⟩ : Duration).lt ⟨T0.secs + 20, T0.nanos⟩ := by
    rw [Duration.lt_def]
    simp only []
    omega
  refine ⟨hv, ?_, ?_⟩
  · rw [verify, hv, if_neg h10]
  · rw [verify, hv, if_pos h20]

/-- Witness for C5 at the stopped instant `T0 = 100s`. -/
theorem generate_valid_until_and_expiry_witness :
    verify ⟨⟨(List.range AUTH_KEY_LENGTH).map fun _ => 'a'⟩, ⟨119, 0⟩⟩ ⟨110, 0⟩ = .ok () ∧
      verify ⟨⟨(List.range AUTH_KEY_LENGTH).map fun _ => 'a'⟩, ⟨119, 0⟩⟩ ⟨120, 0⟩ =
        .error .keyExpired :=
  ((generate_valid_until_and_expiry (fun _ => 'a') ⟨100, 0⟩ (by decide) (by decide)).2
    ⟨⟨(List.range AUTH_KEY_LENGTH).map fun _ => 'a'⟩, ⟨119, 0⟩⟩ rfl).2

/-- C6: with an alphanumeric sample stream (the `Alphanumeric` distribution),
the key parse inside `generate` never fails, and any `ExpiringKey` that
`generate` produces holds a key of exactly `AUTH_KEY_LENGTH` characters, each
alphanumeric. -/
theorem generate_key_shape (rng : Nat → Char) (now lifetime : Duration)
    (halpha : ∀ i, isAlphanumeric (rng i)) :
    (∀ e, generate rng now lifetime ≠ .error (.parseFailed e)) ∧
      ∀ k, generate rng now lifetime = .ok k →
        k.key.val.length = AUTH_KEY_LENGTH ∧ ∀ c ∈ k.key.val, isAlphanumeric c := by
  have hp := random_id_from_str_ok rng halpha
  constructor
  · intro e he
    rcases hq : now.checkedAdd lifetime with _ | v
    · rw [generate_eq_addOverflow rng now lifetime _ hp hq] at he
      cases he
    · rw [generate_eq_ok rng now lifetime _ v hp hq] at he
      cases he
  · intro k hk
    have h1 := (generate_ok_elim rng now lifetime k hk).1
    rw [hp] at h1
    have hkey : k.key = ⟨(List.range AUTH_KEY_LENGTH).map rng⟩ := (Except.ok.inj h1).symm
    rw [hkey]
    refine ⟨by simp, ?_⟩
    intro c hc
    simp only [List.mem_map] at hc
    obtain ⟨i, _, rfl⟩ := hc
    exact halpha i

/-- Witness for C6 with the constant sample stream of letters `a`. -/
theorem generate_key_shape_witness :
    (⟨⟨(List.range AUTH_KEY_LENGTH).map fun _ => 'a'⟩, ⟨19, 0⟩⟩ : ExpiringKey).key.val.length =
      AUTH_KEY_LENGTH :=
  (((generate_key_shape (fun _ => 'a') ⟨0, 0⟩ ⟨19, 0⟩
      (fun _ => show isAlphanumeric 'a' by decide)).2
    ⟨⟨(List.range AUTH_KEY_LENGTH).map fun _ => 'a'⟩, ⟨19, 0⟩⟩) rfl).1

/-- C7: for a strictly positive lifetime, a key that `generate` returns
verifies `Ok` against the unchanged clock reading. -/
theorem fresh_key_verifies (rng : Nat → Char) (now lifetime : Duration) (k : ExpiringKey)
    (hwf : now.wf) (hlwf : lifetime.wf)
    (hpos : 0 < lifetime.secs ∨ 0 < lifetime.nanos)
    (hgen : generate rng now lifetime = .ok k) :
    verify k now = .ok () := by
  have hadd := (generate_ok_elim rng now lifetime k hgen).2
  by_cases hn : NANOS_PER_SEC ≤ now.nanos + lifetime.nanos
  · simp only [Duration.checkedAdd, if_pos hn] at hadd
    split at hadd
    · have hv : k.valid_until =
          ⟨now.secs + lifetime.secs + 1, now.nanos + lifetime.nanos - NANOS_PER_SEC⟩ :=
        (Option.some.inj hadd).symm
      rw [verify, hv, if_neg (by rw [Duration.lt_def]; simp only []; omega)]
    · cases hadd
  · simp only [Duration.checkedAdd, if_neg hn] at hadd
    split at hadd
    · have hv : k.valid_until =
          ⟨now.secs + lifetime.secs + 0, now.nanos + lifetime.nanos⟩ :=
        (Option.some.inj hadd).symm
      rw [verify, hv, if_neg (by rw [Duration.lt_def]; simp only []; omega)]
    · cases hadd

/-- Witness for C7: a 19-second key generated at the instant 5s verifies
against the unchanged reading 5s. -/
theorem fresh_key_verifies_witness :
    verify ⟨⟨(List.range AUTH_KEY_LENGTH).map fun _ => 'a'⟩, ⟨24, 0⟩⟩ ⟨5, 0⟩ = .ok () :=
  fresh_key_verifies (fun _ => 'a') ⟨5, 0⟩ ⟨19, 0⟩
    ⟨⟨(List.range AUTH_KEY_LENGTH).map fun _ => 'a'⟩, ⟨24, 0⟩⟩
    (by decide) (by decide) (by decide) rfl

/-- C8: `verify` is a pure comparison — the threaded call returns the clock
state and the key unchanged, two calls under the same clock reading agree, and
an immediately repeated call returns the same result. -/
theorem verify_pure_idempotent (st st' : ClockState) (k : ExpiringKey)
    (hsame : st.now = st'.now) :
    (verifyCall st k).2.1 = st ∧ (verifyCall st k).2.2 = k ∧
      (verifyCall st k).1 = (verifyCall st' k).1 ∧
      (verifyCall (verifyCall st k).2.1 (verifyCall st k).2.2).1 = (verifyCall st k).1 := by
  refine ⟨rfl, rfl, ?_, rfl⟩
  simp only [verifyCall, hsame]

/-- Witness for C8 at a concrete stopped clock and key. -/
theorem verify_pure_idempotent_witness :
    (verifyCall ⟨⟨5, 0⟩⟩ ⟨⟨"YZSl4lMZupRuOpSRC3krIKR5BPB14nrJ".data⟩, ⟨24, 0⟩⟩).2.1 = ⟨⟨5, 0⟩⟩ ∧
      (verifyCall ⟨⟨5, 0⟩⟩ ⟨⟨"YZSl4lMZupRuOpSRC3krIKR5BPB14nrJ".data⟩, ⟨24, 0⟩⟩).2.2 =
        ⟨⟨"YZSl4lMZupRuOpSRC3krIKR5BPB14nrJ".data⟩, ⟨24, 0⟩⟩ ∧
      (verifyCall ⟨⟨5, 0⟩⟩ ⟨⟨"YZSl4lMZupRuOpSRC3krIKR5BPB14nrJ".data⟩, ⟨24, 0⟩⟩).1 =
        (verifyCall ⟨⟨5, 0⟩⟩ ⟨⟨"YZSl4lMZupRuOpSRC3krIKR5BPB14nrJ".data⟩, ⟨24, 0⟩⟩).1 ∧
      (verifyCall (verifyCall ⟨⟨5, 0⟩⟩ ⟨⟨"YZSl4lMZupRuOpSRC3krIKR5BPB14nrJ".data⟩, ⟨24, 0⟩⟩).2.1
          (verifyCall ⟨⟨5, 0⟩⟩ ⟨⟨"YZSl4lMZupRuOpSRC3krIKR5BPB14nrJ".data⟩, ⟨24, 0⟩⟩).2.2).1 =
        (verifyCall ⟨⟨5, 0⟩⟩ ⟨⟨"YZSl4lMZupRuOpSRC3krIKR5BPB14nrJ".data⟩, ⟨24, 0⟩⟩).1 :=
  verify_pure_idempotent ⟨⟨5, 0⟩⟩ ⟨⟨5, 0⟩⟩
    ⟨⟨"YZSl4lMZupRuOpSRC3krIKR5BPB14nrJ".data⟩, ⟨24, 0⟩⟩ rfl

/-- C9 counterexample: an `ExpiringKey` whose `valid_until` seconds are
`u64::MAX` has no `Display` rendering at all — formatting panics (the
`i64::try_from(..).expect(..)`), so its rendering is not the template string
the claim prescribes for every `ExpiringKey`. -/
theorem display_total_counterexample :
    ExpiringKey.display ⟨⟨"YZSl4lMZupRuOpSRC3krIKR5BPB14nrJ".data⟩,
      ⟨18446744073709551615, 0⟩⟩ = none :=
  rfl

/-- C9 (amended): for every `ExpiringKey` whose `valid_until` is well-formed
and whose seconds do not exceed the largest chrono-representable timestamp,
the `Display` rendering is the template "key: `<token>`, valid until
`<timestamp>`" with the exact key content as token and the UTC rendering of
`valid_until` as timestamp. -/
theorem display_renders_template (k : ExpiringKey) (hwf : k.valid_until.wf)
    (hsecs : k.valid_until.secs ≤ chronoMaxTimestamp) :
    ExpiringKey.display k =
      some (specDisplayTemplate (String.mk k.key.display)
        (String.mk (timestampUTC k.valid_until))) := by
  have h1 : ¬i64Max < k.valid_until.secs := by
    unfold chronoMaxTimestamp at hsecs
    unfold i64Max
    omega
  have h2 : ¬(chronoMaxTimestamp < k.valid_until.secs ∨ 2000000000 ≤ k.valid_until.nanos) := by
    have := hwf.2
    unfold NANOS_PER_SEC at this
    omega
  rw [ExpiringKey.display, if_neg h1, if_neg h2]
  rfl

/-- Witness for C9 (amended): the rendering of a key expiring 19 seconds after
the epoch. -/
theorem display_renders_template_witness :
    ExpiringKey.display ⟨⟨"YZSl4lMZupRuOpSRC3krIKR5BPB14nrJ".data⟩, ⟨19, 0⟩⟩ =
      some (specDisplayTemplate "YZSl4lMZupRuOpSRC3krIKR5BPB14nrJ"
        "1970-01-01 00:00:19 UTC") := by
  have h := display_renders_template ⟨⟨"YZSl4lMZupRuOpSRC3krIKR5BPB14nrJ".data⟩, ⟨19, 0⟩⟩
    (by decide) (by decide)
  rw [h]
  rfl

/-- C10 counterexample: at `valid_until.secs = i64::MAX` — at the bound, so the
claim says the conversion succeeds and no panic occurs — formatting does panic:
chrono rejects the out-of-range timestamp (`NaiveDateTime::from_timestamp`
documents "Panics on the out-of-range number of seconds"). -/
theorem display_panic_bound_counterexample :
    9223372036854775807 ≤ i64Max ∧
      ExpiringKey.display ⟨⟨"YZSl4lMZupRuOpSRC3krIKR5BPB14nrJ".data⟩,
        ⟨9223372036854775807, 0⟩⟩ = none :=
  ⟨by decide, rfl⟩

/-- C10 (amended): for every `ExpiringKey` with a well-formed `valid_until`,
formatting panics (no rendered string) exactly when the whole seconds exceed
chrono's maximum representable timestamp — via the `i64` conversion `expect`
above `i64::MAX`, via chrono's own range panic between the two bounds — and for
seconds at or below that bound a rendering is produced. -/
theorem display_none_iff_beyond_chrono_range (k : ExpiringKey) (hwf : k.valid_until.wf) :
    ExpiringKey.display k = none ↔ chronoMaxTimestamp < k.valid_until.secs := by
  have hn : ¬2000000000 ≤ k.valid_until.nanos := by
    have := hwf.2
    unfold NANOS_PER_SEC at this
    omega
  by_cases h1 : i64Max < k.valid_until.secs
  · rw [ExpiringKey.display, if_pos h1]
    have hc : chronoMaxTimestamp < k.valid_until.secs := by
      unfold chronoMaxTimestamp
      unfold i64Max at h1
      omega
    simp [hc]
  · rw [ExpiringKey.display, if_neg h1]
    by_cases h2 : chronoMaxTimestamp < k.valid_until.secs
    · rw [if_pos (Or.inl h2)]
      simp [h2]
    · rw [if_neg (by omega)]
      simp [h2]

/-- Witness for C10 (amended): one second past the chrono bound formatting
panics. -/
theorem display_none_iff_beyond_chrono_range_witness :
    ExpiringKey.display ⟨⟨"YZSl4lMZupRuOpSRC3krIKR5BPB14nrJ".data⟩,
      ⟨8210298412800, 0⟩⟩ = none :=
  (display_none_iff_beyond_chrono_range
    ⟨⟨"YZSl4lMZupRuOpSRC3krIKR5BPB14nrJ".data⟩, ⟨8210298412800, 0⟩⟩
    (by decide)).mpr (by decide)

end TorrustAuth
